import Mathlib

/-!
Verification of the device session and command-dispatch subsystem of the
fleet backend (src/server.js). The in-memory state is shallowly embedded:
the dashcamData Map becomes an association list of device records, each
request handler becomes a pure function from state to state plus its
observable outputs, and JavaScript Date values become natural-number
millisecond timestamps. Signed time comparisons of the source such as
ts > now - 5000 are rendered in the overflow-free rearranged form
now < ts + 5000, which is equivalent over the integers.
-/

namespace Fleet

/-- Milliseconds in the command dedup window (5 seconds in the source). -/
def dedupWindowMs : Nat := 5000

/-- Milliseconds in the command retention window (10 minutes in the source). -/
def retentionMs : Nat := 10 * 60 * 1000

/-- Milliseconds in the heartbeat timeout (HEARTBEAT_TIMEOUT = 120000). -/
def heartbeatTimeoutMs : Nat := 120000

/-- Default device id hard-coded in the send_command socket handler. -/
def defaultDeviceId : String := "13f15b0094dcc44a"

/-- Status of a queued command in the source: the string values pending
and sent (cleared commands are removed from the queue, so no third value
ever occurs on stored commands). -/
inductive CmdStatus where
  | pending
  | sent
  deriving Repr, DecidableEq

/-- Uninterpreted string-keyed parameter map of a command. -/
abbrev Params := List (String × String)

/-- Uninterpreted string-keyed device metadata object (deviceInfo). -/
abbrev Info := List (String × String)

/-- Uninterpreted location payload. The source builds it with parseFloat from the
request body; the numeric parsing is outside this embedding, the location
value itself is carried around unchanged. -/
abbrev Location := String

/-- One queued command, mirroring the commandData object literal of the
source: id, command name, parameters, enqueue timestamp, status, and the
sentAt stamp added when the poll path delivers it. -/
structure Command where
  id : String
  command : String
  parameters : Params
  timestamp : Nat
  status : CmdStatus
  sentAt : Option Nat
  deriving Repr, DecidableEq

/-- One event record as built by the HTTP events endpoint: generated uuid,
device id, event type, description, timestamp. -/
structure EventRec where
  evId : String
  deviceId : String
  eventType : String
  description : String
  timestamp : Nat
  deriving Repr, DecidableEq

/-- One device record of the dashcamData map. Fields that a given code
path leaves absent on the JavaScript object are modelled as none: the
HTTP registration object carries no location, events, pendingCommands or
socketId field at all, while the socket registration object carries an
explicit empty events list. The status field stays a string because the
HTTP status endpoint stores an arbitrary client-supplied string. -/
structure Dashcam where
  model : Option String
  version : Option String
  status : String
  socketId : Option String
  lastSeen : Nat
  registeredAt : Nat
  location : Option Location
  events : Option (List EventRec)
  pendingCommands : Option (List Command)
  jt808Enabled : Bool
  deviceInfo : Info
  batteryLevel : Option Int
  storageAvailable : Option Int
  deriving Repr, DecidableEq

/-- The dashcamData Map: device id to record, insertion-ordered. -/
abbrev Registry := List (String × Dashcam)

/-- dashcamData.get: the record stored under the id, if any. -/
def getD : Registry → String → Option Dashcam
  | [], _ => none
  | p :: rest, did => if p.1 = did then some p.2 else getD rest did

/-- dashcamData.set: replace the entry under the id in place, or append a
new entry when the id is not yet present (JavaScript Map semantics). -/
def setD : Registry → String → Dashcam → Registry
  | [], did, d => [(did, d)]
  | p :: rest, did, d =>
    if p.1 = did then (did, d) :: rest else p :: setD rest did d

/-- The command queue stored for a device, reading an absent
pendingCommands field as the empty queue (the source lazily initialises
the field to an empty array before every use). -/
def queueOf (reg : Registry) (did : String) : List Command :=
  match getD reg did with
  | some d => d.pendingCommands.getD []
  | none => []

/-- The dedup scan shared by both command entry paths: commands with the
same name whose enqueue timestamp lies inside the dedup window. The
source filters on cmd.command === command and
new Date(cmd.timestamp) > now - 5000; note that it does not look at the
status field. -/
def recentDuplicates (now : Nat) (name : String) (q : List Command) : List Command :=
  q.filter (fun c => decide (c.command = name) && decide (now < c.timestamp + dedupWindowMs))

/-- A freshly enqueued command: the source uses Date.now().toString() as
the id, the current time as the enqueue timestamp, and status pending. -/
def mkCommand (now : Nat) (name : String) (params : Params) : Command :=
  { id := toString now, command := name, parameters := params,
    timestamp := now, status := CmdStatus.pending, sentAt := none }

/-- JSON body answered by the HTTP command enqueue endpoint. -/
structure HttpCmdResponse where
  success : Bool
  message : String
  commandId : Option String
  deriving Repr, DecidableEq

/-- POST /api/dashcams/:deviceId/commands. Unknown device ids answer 404,
modelled as none. A dedup hit answers success with the id of the first
matching queued command and leaves the registry untouched; otherwise a
fresh pending command is appended to the tail of the queue and its id is
answered. The command_sent broadcast is a pure notification and is not
modelled on this path. -/
def httpPostCommand (now : Nat) (deviceId name : String) (params : Params)
    (reg : Registry) : Registry × Option HttpCmdResponse :=
  match getD reg deviceId with
  | none => (reg, none)
  | some d =>
    let q := d.pendingCommands.getD []
    match recentDuplicates now name q with
    | c :: _ =>
      (reg, some { success := true,
                   message := "duplicate ignored",
                   commandId := some c.id })
    | [] =>
      let cmd := mkCommand now name params
      (setD reg deviceId { d with pendingCommands := some (q ++ [cmd]) },
       some { success := true, message := "queued",
              commandId := some cmd.id })

/-- Everything the send_command socket handler emits: the command_sent
broadcast carrying the full command object, and the command_response
acknowledgement to the caller carrying only a success flag and a
message. -/
inductive SocketEmit where
  | commandSent (deviceId : String) (cmd : Command)
  | commandResponse (success : Bool) (message : String)
  deriving Repr, DecidableEq

/-- socket.on send_command: same dedup and enqueue logic as the HTTP
endpoint, with the hard-coded default device id when no target is given.
Its acknowledgement carries no command id on any branch, and the
command_sent broadcast (which does carry the command) is emitted only
when a fresh command was actually enqueued. -/
def socketSendCommand (now : Nat) (target : Option String) (name : String)
    (params : Params) (reg : Registry) : Registry × List SocketEmit :=
  let deviceId := target.getD defaultDeviceId
  match getD reg deviceId with
  | none => (reg, [SocketEmit.commandResponse false "Device not found"])
  | some d =>
    let q := d.pendingCommands.getD []
    match recentDuplicates now name q with
    | _ :: _ => (reg, [SocketEmit.commandResponse true "duplicate ignored"])
    | [] =>
      let cmd := mkCommand now name params
      (setD reg deviceId { d with pendingCommands := some (q ++ [cmd]) },
       [SocketEmit.commandSent deviceId cmd,
        SocketEmit.commandResponse true "queued"])

/-- The command ids observable in a batch of socket emissions: only
command_sent events carry a command and hence an id. -/
def emittedCommandIds : List SocketEmit → List String
  | [] => []
  | SocketEmit.commandSent _ c :: rest => c.id :: emittedCommandIds rest
  | SocketEmit.commandResponse _ _ :: rest => emittedCommandIds rest

/-- The retention filter of the poll path: keep exactly the commands whose
enqueue timestamp is inside the 10-minute window, regardless of status
(source: new Date(cmd.timestamp) > now - 10 * 60 * 1000). -/
def retained (now : Nat) (q : List Command) : List Command :=
  q.filter (fun c => decide (now < c.timestamp + retentionMs))

/-- Delivery marking of the poll path: status becomes sent and sentAt is
stamped with the poll time. -/
def markSent (now : Nat) (c : Command) : Command :=
  { c with status := CmdStatus.sent, sentAt := some now }

/-- Queue-level core of GET /api/dashcams/:deviceId/commands: evict
commands outside the retention window, hand the surviving pending
commands to the device (the source mutates them in place before
serialising, so the device sees them already marked sent), and keep
everything that survived eviction in the stored queue. Returns the pair
(commands delivered, stored queue afterwards). -/
def drainPending (now : Nat) (q : List Command) : List Command × List Command :=
  let kept := retained now q
  ((kept.filter (fun c => c.status == CmdStatus.pending)).map (markSent now),
   kept.map (fun c => if c.status == CmdStatus.pending then markSent now c else c))

/-- GET /api/dashcams/:deviceId/commands at registry level; none models
the 404 branch for unknown devices. -/
def httpGetCommands (now : Nat) (deviceId : String) (reg : Registry) :
    Registry × Option (List Command) :=
  match getD reg deviceId with
  | none => (reg, none)
  | some d =>
    let (out, stored) := drainPending now (d.pendingCommands.getD [])
    (setD reg deviceId { d with pendingCommands := some stored }, some out)

/-- POST /api/dashcams/:deviceId/commands/reset: every sent command goes
back to pending and loses its sentAt stamp. -/
def resetQueue (q : List Command) : List Command :=
  q.map (fun c =>
    if c.status == CmdStatus.sent then
      { c with status := CmdStatus.pending, sentAt := none }
    else c)

/-- POST /api/dashcams/:deviceId/response: only a successful result
mutates the queue; it removes every command with the reported id when an
id is supplied, else every command with the reported name. A failed
result leaves the registry untouched (the command keeps whatever status
it had). The two result broadcasts are pure notifications and are not
modelled. -/
def httpPostResponse (deviceId name : String) (success : Bool)
    (commandId : Option String) (reg : Registry) : Registry :=
  match getD reg deviceId with
  | none => reg
  | some d =>
    match d.pendingCommands with
    | none => reg
    | some q =>
      if success then
        let q' := match commandId with
          | some cid => q.filter (fun c => !(decide (c.id = cid)))
          | none => q.filter (fun c => !(decide (c.command = name)))
        setD reg deviceId { d with pendingCommands := some q' }
      else reg

/-- Object-spread merge of two metadata objects: keys of the update
override keys of the base, update keys come last. -/
def mergeInfo (base upd : Info) : Info :=
  base.filter (fun kv => !(upd.any (fun kv2 => kv2.1 == kv.1))) ++ upd

/-- POST /api/dashcams/register: after the device-id presence check the
handler builds a brand-new record literal and stores it under the id,
replacing whatever record was there. The fresh object carries model,
version, status online, lastSeen, registeredAt and jt808Enabled only: no
socket handle, no location, no events list, no command queue. Returns
false for the 400 branch on an empty device id. -/
def httpRegister (now : Nat) (deviceId : String) (model version : Option String)
    (reg : Registry) : Registry × Bool :=
  if deviceId = "" then (reg, false)
  else
    (setD reg deviceId
      { model := some (model.getD "Unknown"),
        version := some (version.getD "Unknown"),
        status := "online", socketId := none,
        lastSeen := now, registeredAt := now,
        location := none, events := none, pendingCommands := none,
        jt808Enabled := false, deviceInfo := [],
        batteryLevel := none, storageAvailable := none }, true)

/-- socket.on dashcam_register: an existing record is updated in place
(socket handle, lastSeen, status online, deviceInfo merged by object
spread) and keeps all its other fields; an unknown id gets a fresh record
with an explicit empty events list, no command queue, status online and
the socket handle attached. The source spreads the supplied deviceInfo
into the top level of the fresh object; the model stores it in the
deviceInfo field. -/
def socketRegister (now : Nat) (sid deviceId : String) (info : Info)
    (reg : Registry) : Registry :=
  match getD reg deviceId with
  | some d =>
    setD reg deviceId
      { d with socketId := some sid, lastSeen := now, status := "online",
               deviceInfo := mergeInfo d.deviceInfo info }
  | none =>
    setD reg deviceId
      { model := none, version := none, status := "online",
        socketId := some sid, lastSeen := now, registeredAt := now,
        location := none, events := some [], pendingCommands := none,
        jt808Enabled := false, deviceInfo := info,
        batteryLevel := none, storageAvailable := none }

/-- socket.on device_reconnect: only known ids are touched; the record
gets the new socket handle, refreshed lastSeen, status online, and the
deviceInfo merge when info accompanies the call. -/
def socketReconnect (now : Nat) (sid deviceId : String) (info : Option Info)
    (reg : Registry) : Registry :=
  match getD reg deviceId with
  | none => reg
  | some d =>
    setD reg deviceId
      { d with socketId := some sid, lastSeen := now, status := "online",
               deviceInfo := match info with
                             | some i => mergeInfo d.deviceInfo i
                             | none => d.deviceInfo }

/-- socket.on heartbeat: refresh lastSeen when the id is known, silently
ignore otherwise. Status and socket handle are untouched. -/
def socketHeartbeat (now : Nat) (deviceId : String) (reg : Registry) : Registry :=
  match getD reg deviceId with
  | none => reg
  | some d => setD reg deviceId { d with lastSeen := now }

/-- POST /api/dashcams/:deviceId/heartbeat: refresh lastSeen and the
battery and storage metrics when the id is known; no auto-provisioning.
Status and socket handle are untouched. -/
def httpHeartbeat (now : Nat) (deviceId : String) (battery storage : Option Int)
    (reg : Registry) : Registry :=
  match getD reg deviceId with
  | none => reg
  | some d =>
    setD reg deviceId
      { d with lastSeen := now, batteryLevel := battery, storageAvailable := storage }

/-- POST /api/dashcams/:deviceId/status: stores the client-supplied
status string verbatim (keeping the old one when the field is falsy,
modelled as none), refreshes lastSeen and the metrics, and ors the jt808
flag. The socket handle is not touched, whatever status is stored. The
404 branch leaves the registry unchanged. -/
def httpStatusUpdate (now : Nat) (deviceId : String) (st : Option String)
    (battery storage : Option Int) (jt : Bool) (reg : Registry) : Registry :=
  match getD reg deviceId with
  | none => reg
  | some d =>
    setD reg deviceId
      { d with status := st.getD d.status, lastSeen := now,
               batteryLevel := battery, storageAvailable := storage,
               jt808Enabled := jt || d.jt808Enabled }

/-- The disconnect handler: walk the registry in insertion order and mark
the first record holding this socket id offline with the handle cleared
(the source breaks out of its loop after the first hit). -/
def disconnectSocket (sid : String) : Registry → Registry
  | [] => []
  | p :: rest =>
    if p.2.socketId = some sid then
      (p.1, { p.2 with status := "offline", socketId := none }) :: rest
    else p :: disconnectSocket sid rest

/-- loadDashcamData: every restored record has its socket handle nulled
and its status forced to offline, whatever was persisted. -/
def restoreFromDisk (reg : Registry) : Registry :=
  reg.map (fun p => (p.1, { p.2 with socketId := none, status := "offline" }))

/-- One device under the heartbeat monitor: it transitions to offline
with the socket handle cleared exactly when it is online and its silence
exceeds the timeout (source condition now - lastSeen > HEARTBEAT_TIMEOUT,
rendered as lastSeen + timeout < now). The boolean reports whether the
device transitioned. -/
def sweepDevice (now : Nat) (d : Dashcam) : Dashcam × Bool :=
  if d.status = "online" ∧ d.lastSeen + heartbeatTimeoutMs < now then
    ({ d with status := "offline", socketId := none }, true)
  else (d, false)

/-- One pass of the 30-second heartbeat monitor over the registry:
the updated registry and the batch of device ids that went offline, in
registry order. -/
def sweepRegistry (now : Nat) (reg : Registry) : Registry × List String :=
  (reg.map (fun p => (p.1, (sweepDevice now p.2).1)),
   (reg.filter (fun p => (sweepDevice now p.2).2)).map (fun p => p.1))

/-- Notification emitted by the heartbeat monitor. -/
inductive SweepEmit where
  | devicesOffline (deviceIds : List String)
  deriving Repr, DecidableEq

/-- A full monitor pass together with its side effects: how many
persistence snapshots it writes and which notifications it emits. The
source persists once and emits one batched devices_offline event when at
least one device transitioned, and does neither otherwise. -/
def sweepRun (now : Nat) (reg : Registry) :
    Registry × List String × Nat × List SweepEmit :=
  if (sweepRegistry now reg).2.isEmpty then
    ((sweepRegistry now reg).1, (sweepRegistry now reg).2, 0, [])
  else
    ((sweepRegistry now reg).1, (sweepRegistry now reg).2, 1,
     [SweepEmit.devicesOffline (sweepRegistry now reg).2])

/-- POST /api/dashcams/:deviceId/location: unknown ids are auto-registered
with the default record literal of that handler (status online, model
Unknown, empty events list, no queue, no socket handle); then the
location is stored and lastSeen refreshed. The jt808Data blob push and
the broadcast are uninterpreted side effects not modelled. -/
def httpPostLocation (now : Nat) (deviceId : String) (loc : Location)
    (reg : Registry) : Registry :=
  let d := match getD reg deviceId with
    | some d0 => d0
    | none =>
      { model := some "Unknown", version := some "1.0", status := "online",
        socketId := none, lastSeen := now, registeredAt := now,
        location := none, events := some [], pendingCommands := none,
        jt808Enabled := false, deviceInfo := [],
        batteryLevel := none, storageAvailable := none }
  setD reg deviceId { d with location := some loc, lastSeen := now }

/-- POST /api/dashcams/:deviceId/events. evId models the generated uuid.
The event is always appended to the global event log; the device record
is updated (event appended, lastSeen refreshed) only when the id is
already known: this path does not auto-provision. When the stored record
has no events list (an HTTP-registered record), the push on the absent
array in the source would throw before lastSeen is touched, so the
registry is left unchanged and the boolean result is false. -/
def httpPostEvent (now : Nat) (deviceId evId eventType description : String)
    (eventLog : List EventRec) (reg : Registry) :
    List EventRec × Registry × Bool :=
  let ev : EventRec := { evId := evId, deviceId := deviceId,
                         eventType := eventType, description := description,
                         timestamp := now }
  let log' := eventLog ++ [ev]
  match getD reg deviceId with
  | none => (log', reg, true)
  | some d =>
    match d.events with
    | none => (log', reg, false)
    | some evs =>
      (log', setD reg deviceId
               { d with events := some (evs ++ [ev]), lastSeen := now }, true)

/-- One entry of the global commandHistory array, as pushed by the
command_response socket handler. -/
structure HistoryEntry where
  commandId : Option String
  deviceId : Option String
  response : String
  success : Bool
  timestamp : Nat
  deriving Repr, DecidableEq

/-- Broadcast re-emitted by the command_response socket handler. -/
inductive RespEmit where
  | commandResponse (e : HistoryEntry)
  deriving Repr, DecidableEq

/-- socket.on command_response: the handler pushes one entry onto the
global commandHistory and re-broadcasts it; it never reads or writes
dashcamData, so the registry is passed through untouched. -/
def socketCommandResponse (now : Nat) (commandId deviceId : Option String)
    (response : String) (success : Bool) (history : List HistoryEntry)
    (reg : Registry) : List HistoryEntry × Registry × List RespEmit :=
  let e : HistoryEntry := { commandId := commandId, deviceId := deviceId,
                            response := response, success := success,
                            timestamp := now }
  (history ++ [e], reg, [RespEmit.commandResponse e])

/-- The registry-mutating operations named by the session-handle claim:
registration via either path, heartbeat via either path, the HTTP status
update, the disconnect handler, the periodic sweep and the restore from
disk. -/
inductive FleetOp where
  | opSocketRegister (now : Nat) (sid deviceId : String) (info : Info)
  | opSocketReconnect (now : Nat) (sid deviceId : String) (info : Option Info)
  | opHttpRegister (now : Nat) (deviceId : String) (model version : Option String)
  | opSocketHeartbeat (now : Nat) (deviceId : String)
  | opHttpHeartbeat (now : Nat) (deviceId : String) (battery storage : Option Int)
  | opStatusUpdate (now : Nat) (deviceId : String) (st : Option String)
      (battery storage : Option Int) (jt : Bool)
  | opDisconnect (sid : String)
  | opSweep (now : Nat)
  | opRestore
  deriving Repr, DecidableEq

/-- Effect of one operation on the registry. -/
def applyOp (reg : Registry) : FleetOp → Registry
  | FleetOp.opSocketRegister now sid did info => socketRegister now sid did info reg
  | FleetOp.opSocketReconnect now sid did info => socketReconnect now sid did info reg
  | FleetOp.opHttpRegister now did model version => (httpRegister now did model version reg).1
  | FleetOp.opSocketHeartbeat now did => socketHeartbeat now did reg
  | FleetOp.opHttpHeartbeat now did b s => httpHeartbeat now did b s reg
  | FleetOp.opStatusUpdate now did st b s jt => httpStatusUpdate now did st b s jt reg
  | FleetOp.opDisconnect sid => disconnectSocket sid reg
  | FleetOp.opSweep now => (sweepRegistry now reg).1
  | FleetOp.opRestore => restoreFromDisk reg

/-- Effect of a sequence of operations, first to last. -/
def applyOps (reg : Registry) (ops : List FleetOp) : Registry :=
  ops.foldl applyOp reg

/-- The push-channel and system operations: everything of FleetOp except
the HTTP registration and the HTTP status update. -/
def pushChannelOp : FleetOp → Bool
  | FleetOp.opHttpRegister _ _ _ _ => false
  | FleetOp.opStatusUpdate _ _ _ _ _ _ => false
  | _ => true

/-- The per-record session-handle condition of the spec: an online
record holds a socket handle and an offline record holds none. -/
def sessionOk (d : Dashcam) : Prop :=
  (d.status = "online" → d.socketId.isSome = true) ∧
  (d.status = "offline" → d.socketId = none)

instance : DecidablePred sessionOk := fun _ =>
  inferInstanceAs (Decidable (_ ∧ _))

/-- The session-handle invariant over the whole registry. -/
def sessionInv (reg : Registry) : Prop :=
  ∀ p ∈ reg, sessionOk p.2

instance : DecidablePred sessionInv := fun reg =>
  inferInstanceAs (Decidable (∀ p ∈ reg, _))

/-- Number of pending commands carrying the given name in a queue. -/
def pendingNamedCount (name : String) (q : List Command) : Nat :=
  (q.filter (fun c => decide (c.command = name) && decide (c.status = CmdStatus.pending))).length

/-- A device record used as a concrete starting point in the witnesses. -/
def sampleDevice : Dashcam :=
  { model := some "X1", version := some "1.0", status := "online",
    socketId := some "s1", lastSeen := 1000, registeredAt := 500,
    location := none, events := some [], pendingCommands := none,
    jt808Enabled := false, deviceInfo := [], batteryLevel := none,
    storageAvailable := none }

/-- A device whose queue holds a single already-delivered (status sent)
takePhoto command enqueued at time 10000. -/
def sentDevice : Dashcam :=
  { sampleDevice with
    pendingCommands := some [{ id := "10000", command := "takePhoto",
                               parameters := [], timestamp := 10000,
                               status := CmdStatus.sent, sentAt := some 10500 }] }

/-- A concrete three-command queue: two pending commands around one
already-sent command, all enqueued well inside the retention window. -/
def pollQueue : List Command :=
  [{ id := "100", command := "takePhoto", parameters := [], timestamp := 100,
     status := CmdStatus.pending, sentAt := none },
   { id := "200", command := "playTTS", parameters := [("msg", "hi")], timestamp := 200,
     status := CmdStatus.sent, sentAt := some 250 },
   { id := "300", command := "getStatus", parameters := [], timestamp := 300,
     status := CmdStatus.pending, sentAt := none }]

/-- A registered device owning the concrete pollQueue. -/
def resolveDevice : Dashcam :=
  { sampleDevice with pendingCommands := some pollQueue }

/-- A device whose queue holds two distinct commands sharing the name
takePhoto (one pending, one sent) plus one getStatus command. -/
def dupNameDevice : Dashcam :=
  { sampleDevice with
    pendingCommands := some
      [{ id := "1", command := "takePhoto", parameters := [], timestamp := 100,
         status := CmdStatus.pending, sentAt := none },
       { id := "2", command := "takePhoto", parameters := [], timestamp := 200,
         status := CmdStatus.sent, sentAt := some 250 },
       { id := "3", command := "getStatus", parameters := [], timestamp := 300,
         status := CmdStatus.pending, sentAt := none }] }

/-- A device record carrying a queued command, an event and a location,
used to observe what an HTTP re-registration does to them. -/
def busyDevice : Dashcam :=
  { model := some "X1", version := some "2.0", status := "online",
    socketId := some "s9", lastSeen := 1000, registeredAt := 500,
    location := some "loc1",
    events := some [{ evId := "e1", deviceId := "d", eventType := "motion",
                      description := "movement seen", timestamp := 900 }],
    pendingCommands := some [{ id := "700", command := "takePhoto",
                               parameters := [], timestamp := 700,
                               status := CmdStatus.pending, sentAt := none }],
    jt808Enabled := true, deviceInfo := [("fw", "7")],
    batteryLevel := none, storageAvailable := none }

/-- A command enqueued at time 100, long outside the retention window at
poll time 700000. -/
def oldCommand : Command :=
  { id := "1", command := "takePhoto", parameters := [], timestamp := 100,
    status := CmdStatus.pending, sentAt := none }

/-- An online device whose last heartbeat is far beyond the timeout at
sweep time 400000. -/
def staleDevice : Dashcam :=
  { sampleDevice with status := "online", socketId := some "sa", lastSeen := 1000 }

/-- An online device whose last heartbeat is within the timeout at sweep
time 400000. -/
def liveDevice : Dashcam :=
  { sampleDevice with status := "online", socketId := some "sb", lastSeen := 350000 }

/-- A device already offline before the sweep. -/
def offDevice : Dashcam :=
  { sampleDevice with status := "offline", socketId := none, lastSeen := 1000 }

/-- The concrete registry swept in the liveness witness. -/
def sweepReg : Registry := [("a", staleDevice), ("b", liveDevice), ("c", offDevice)]

theorem getD_setD_self (reg : Registry) (did : String) (d : Dashcam) :
    getD (setD reg did d) did = some d := by
  induction reg with
  | nil => simp [setD, getD]
  | cons p rest ih =>
    by_cases h : p.1 = did
    · simp [setD, getD, h]
    · simp [setD, getD, h, ih]

theorem getD_setD_ne (reg : Registry) (did did' : String) (d : Dashcam)
    (h : did' ≠ did) : getD (setD reg did d) did' = getD reg did' := by
  induction reg with
  | nil => simp [setD, getD, Ne.symm h]
  | cons p rest ih =>
    by_cases hp : p.1 = did
    · subst hp
      simp [setD, getD, Ne.symm h]
    · by_cases hp' : p.1 = did'
      · simp [setD, getD, hp, hp', h]
      · simp [setD, getD, hp, hp', ih]

theorem mem_setD {reg : Registry} {did : String} {d : Dashcam}
    {p : String × Dashcam} (h : p ∈ setD reg did d) :
    p = (did, d) ∨ p ∈ reg := by
  induction reg with
  | nil => simpa [setD] using h
  | cons q rest ih =>
    by_cases hq : q.1 = did
    · simp only [setD, if_pos hq, List.mem_cons] at h
      rcases h with h | h
      · exact Or.inl h
      · exact Or.inr (List.mem_cons_of_mem _ h)
    · simp only [setD, if_neg hq, List.mem_cons] at h
      rcases h with h | h
      · exact Or.inr (h ▸ List.mem_cons_self _ _)
      · rcases ih h with h' | h'
        · exact Or.inl h'
        · exact Or.inr (List.mem_cons_of_mem _ h')

theorem getD_mem {reg : Registry} {did : String} {d : Dashcam}
    (h : getD reg did = some d) : (did, d) ∈ reg := by
  induction reg with
  | nil => cases h
  | cons p rest ih =>
    by_cases hp : p.1 = did
    · obtain ⟨k, v⟩ := p
      simp only [getD, if_pos hp, Option.some.injEq] at h
      subst h
      subst hp
      exact List.mem_cons_self _ _
    · simp only [getD, if_neg hp] at h
      exact List.mem_cons_of_mem _ (ih h)

theorem key_inj_of_nodup {p p' : String × Dashcam} :
    ∀ {reg : Registry}, (reg.map Prod.fst).Nodup →
      p ∈ reg → p' ∈ reg → p.1 = p'.1 → p = p' := by
  intro reg
  induction reg with
  | nil => intro _ hp; cases hp
  | cons q rest ih =>
    intro h hp hp' hk
    rw [List.map_cons, List.nodup_cons] at h
    have hq : q.1 ∉ rest.map Prod.fst := h.1
    have hrest : (rest.map Prod.fst).Nodup := h.2
    rcases List.mem_cons.mp hp with rfl | hp1
    · rcases List.mem_cons.mp hp' with rfl | hp'1
      · rfl
      · exact absurd (hk ▸ List.mem_map_of_mem Prod.fst hp'1) hq
    · rcases List.mem_cons.mp hp' with rfl | hp'1
      · exact absurd (hk ▸ List.mem_map_of_mem Prod.fst hp1) hq
      · exact ih hrest hp1 hp'1 hk

theorem recentDuplicates_eq_nil {now : Nat} {name : String} {q : List Command}
    (h : ∀ c ∈ q, c.command ≠ name) : recentDuplicates now name q = [] := by
  rw [recentDuplicates, List.filter_eq_nil_iff]
  intro c hc
  simp [h c hc]

theorem recentDuplicates_append_single (now : Nat) (name : String)
    (q : List Command) (c : Command)
    (hq : ∀ c' ∈ q, c'.command ≠ name)
    (hc : c.command = name) (ht : now < c.timestamp + dedupWindowMs) :
    recentDuplicates now name (q ++ [c]) = [c] := by
  have h0 : recentDuplicates now name q = [] := recentDuplicates_eq_nil hq
  rw [recentDuplicates] at h0
  rw [recentDuplicates, List.filter_append, h0]
  simp [hc, ht]

theorem pendingNamedCount_eq_zero {name : String} {q : List Command}
    (h : ∀ c ∈ q, c.command ≠ name) : pendingNamedCount name q = 0 := by
  rw [pendingNamedCount, List.length_eq_zero, List.filter_eq_nil_iff]
  intro c hc
  simp [h c hc]

theorem httpPostCommand_fresh (now : Nat) (deviceId name : String) (params : Params)
    (reg : Registry) (d : Dashcam) (hget : getD reg deviceId = some d)
    (hnil : recentDuplicates now name (d.pendingCommands.getD []) = []) :
    httpPostCommand now deviceId name params reg =
      (setD reg deviceId
         { d with
           pendingCommands :=
             some (d.pendingCommands.getD [] ++ [mkCommand now name params]) },
       some { success := true, message := "queued",
              commandId := some (toString now) }) := by
  simp [httpPostCommand, hget, hnil, mkCommand]

theorem httpPostCommand_dup (now : Nat) (deviceId name : String) (params : Params)
    (reg : Registry) (d : Dashcam) (c : Command) (cs : List Command)
    (hget : getD reg deviceId = some d)
    (hdup : recentDuplicates now name (d.pendingCommands.getD []) = c :: cs) :
    httpPostCommand now deviceId name params reg =
      (reg, some { success := true, message := "duplicate ignored",
                   commandId := some c.id }) := by
  simp [httpPostCommand, hget, hdup]

theorem socketSendCommand_fresh (now : Nat) (deviceId name : String) (params : Params)
    (reg : Registry) (d : Dashcam) (hget : getD reg deviceId = some d)
    (hnil : recentDuplicates now name (d.pendingCommands.getD []) = []) :
    socketSendCommand now (some deviceId) name params reg =
      (setD reg deviceId
         { d with
           pendingCommands :=
             some (d.pendingCommands.getD [] ++ [mkCommand now name params]) },
       [SocketEmit.commandSent deviceId (mkCommand now name params),
        SocketEmit.commandResponse true "queued"]) := by
  simp [socketSendCommand, hget, hnil]

theorem socketSendCommand_dup (now : Nat) (deviceId name : String) (params : Params)
    (reg : Registry) (d : Dashcam) (c : Command) (cs : List Command)
    (hget : getD reg deviceId = some d)
    (hdup : recentDuplicates now name (d.pendingCommands.getD []) = c :: cs) :
    socketSendCommand now (some deviceId) name params reg =
      (reg, [SocketEmit.commandResponse true "duplicate ignored"]) := by
  simp [socketSendCommand, hget, hdup]

theorem pendingNamedCount_append (name : String) (xs ys : List Command) :
    pendingNamedCount name (xs ++ ys)
      = pendingNamedCount name xs + pendingNamedCount name ys := by
  simp [pendingNamedCount, List.filter_append]

theorem pendingNamedCount_single_pending (name : String) (t : Nat) (params : Params) :
    pendingNamedCount name [mkCommand t name params] = 1 := by
  simp [pendingNamedCount, mkCommand]

/-- C1 (amended): enqueueing the same command name twice for a device
within the 5-second dedup window, starting from a queue with no command
of that name, leaves exactly one pending command of that name in the
queue on both entry paths, and the second call leaves the registry
untouched. On the HTTP path both calls answer the same command id; the
push (Socket.IO) path acknowledges the duplicate with success only — its
acknowledgement carries no command id — and its dedup scan (like the
HTTP one) matches same-name commands within the window regardless of
their status, not only pending ones. -/
theorem enqueue_idempotent_within_window
    (t₁ t₂ : Nat) (deviceId name : String) (p₁ p₂ : Params)
    (reg : Registry) (d : Dashcam)
    (hget : getD reg deviceId = some d)
    (hfresh : ∀ c ∈ d.pendingCommands.getD [], c.command ≠ name)
    (hwin : t₂ < t₁ + dedupWindowMs) :
    httpPostCommand t₁ deviceId name p₁ reg =
      (setD reg deviceId
         { d with
           pendingCommands :=
             some (d.pendingCommands.getD [] ++ [mkCommand t₁ name p₁]) },
       some { success := true, message := "queued",
              commandId := some (toString t₁) })
    ∧ httpPostCommand t₂ deviceId name p₂
        (httpPostCommand t₁ deviceId name p₁ reg).1 =
      ((httpPostCommand t₁ deviceId name p₁ reg).1,
       some { success := true, message := "duplicate ignored",
              commandId := some (toString t₁) })
    ∧ pendingNamedCount name
        (queueOf (httpPostCommand t₂ deviceId name p₂
           (httpPostCommand t₁ deviceId name p₁ reg).1).1 deviceId) = 1
    ∧ socketSendCommand t₁ (some deviceId) name p₁ reg =
      ((httpPostCommand t₁ deviceId name p₁ reg).1,
       [SocketEmit.commandSent deviceId (mkCommand t₁ name p₁),
        SocketEmit.commandResponse true "queued"])
    ∧ socketSendCommand t₂ (some deviceId) name p₂
        (httpPostCommand t₁ deviceId name p₁ reg).1 =
      ((httpPostCommand t₁ deviceId name p₁ reg).1,
       [SocketEmit.commandResponse true "duplicate ignored"])
    ∧ emittedCommandIds (socketSendCommand t₂ (some deviceId) name p₂
        (httpPostCommand t₁ deviceId name p₁ reg).1).2 = [] := by
  have hnil₁ : recentDuplicates t₁ name (d.pendingCommands.getD []) = [] :=
    recentDuplicates_eq_nil hfresh
  have h1 := httpPostCommand_fresh t₁ deviceId name p₁ reg d hget hnil₁
  have hget₁ : getD (httpPostCommand t₁ deviceId name p₁ reg).1 deviceId
      = some { d with
               pendingCommands :=
                 some (d.pendingCommands.getD [] ++ [mkCommand t₁ name p₁]) } := by
    rw [h1]
    exact getD_setD_self reg deviceId _
  have hdup₂ : recentDuplicates t₂ name
      (({ d with
          pendingCommands :=
            some (d.pendingCommands.getD [] ++ [mkCommand t₁ name p₁]) } :
          Dashcam).pendingCommands.getD [])
      = mkCommand t₁ name p₁ :: [] :=
    recentDuplicates_append_single t₂ name _ _ hfresh rfl hwin
  have h2 := httpPostCommand_dup t₂ deviceId name p₂ _ _ _ _ hget₁ hdup₂
  have h4 := socketSendCommand_fresh t₁ deviceId name p₁ reg d hget hnil₁
  have h5 := socketSendCommand_dup t₂ deviceId name p₂ _ _ _ _ hget₁ hdup₂
  refine ⟨h1, h2, ?_, ?_, h5, ?_⟩
  · rw [h2]
    have hq : queueOf (httpPostCommand t₁ deviceId name p₁ reg).1 deviceId
        = d.pendingCommands.getD [] ++ [mkCommand t₁ name p₁] := by
      simp [queueOf, hget₁]
    rw [hq, pendingNamedCount_append, pendingNamedCount_eq_zero hfresh,
        pendingNamedCount_single_pending]
  · rw [h1]
    exact h4
  · rw [h5]
    simp [emittedCommandIds]

/-- C1 counterexample, refuting the claim as stated on two of its
clauses. First: on the push path the duplicate call does not return the
command id — the second send_command within the window is acknowledged
with emissions carrying no command id at all. Second: the dedup scan
does not match only pending-status commands — against a queue holding
only a sent takePhoto command enqueued within the window, the enqueue
creates no new pending command (the claimed pending-only matching would
have enqueued a fresh one) and echoes the sent command id instead. -/
theorem enqueue_claim_counterexample :
    emittedCommandIds (socketSendCommand 12000 (some "d") "takePhoto" []
        (socketSendCommand 10000 (some "d") "takePhoto" []
          [("d", sampleDevice)]).1).2 = []
    ∧ (httpPostCommand 12000 "d" "takePhoto" [] [("d", sentDevice)]).1
        = [("d", sentDevice)]
    ∧ pendingNamedCount "takePhoto"
        (queueOf (httpPostCommand 12000 "d" "takePhoto" []
          [("d", sentDevice)]).1 "d") = 0
    ∧ (httpPostCommand 12000 "d" "takePhoto" [] [("d", sentDevice)]).2
        = some { success := true, message := "duplicate ignored",
                 commandId := some "10000" } := by
  decide

/-- Witness for C1 at concrete inputs: two takePhoto enqueues at times
10000 and 12000 onto a device with an empty queue. -/
theorem enqueue_idempotent_within_window_witness :
    pendingNamedCount "takePhoto"
      (queueOf (httpPostCommand 12000 "d" "takePhoto" []
         (httpPostCommand 10000 "d" "takePhoto" [] [("d", sampleDevice)]).1).1 "d") = 1
    ∧ (httpPostCommand 12000 "d" "takePhoto" []
         (httpPostCommand 10000 "d" "takePhoto" [] [("d", sampleDevice)]).1).2
        = some { success := true, message := "duplicate ignored",
                 commandId := some (toString 10000) } := by
  have h := enqueue_idempotent_within_window 10000 12000 "d" "takePhoto" [] []
    [("d", sampleDevice)] sampleDevice (by decide) (by decide) (by decide)
  exact ⟨h.2.2.1, by rw [h.2.1]⟩

theorem mem_retained {now : Nat} {q : List Command} {c : Command}
    (h : c ∈ retained now q) : c ∈ q ∧ now < c.timestamp + retentionMs := by
  rw [retained] at h
  have h' := List.mem_filter.mp h
  exact ⟨h'.1, by simpa using h'.2⟩

theorem drainPending_fst_eq_nil (now : Nat) (q : List Command)
    (h : ∀ c ∈ q, c.status = CmdStatus.sent) : (drainPending now q).1 = [] := by
  have hf : (retained now q).filter (fun c => c.status == CmdStatus.pending) = [] := by
    rw [List.filter_eq_nil_iff]
    intro c hc
    simp [h c (mem_retained hc).1]
  simp only [drainPending]
  rw [hf, List.map_nil]

/-- C2: a poll on a queue whose commands are all inside the retention
window hands the device exactly the pending commands, in queue (FIFO)
order, each flipped to sent and stamped with the poll time; the stored
queue afterwards holds no pending command, so an immediately following
poll hands back the empty sequence. -/
theorem drain_pickup_once (t₁ t₂ : Nat) (q : List Command)
    (hret : ∀ c ∈ q, t₁ < c.timestamp + retentionMs) :
    (drainPending t₁ q).1
      = (q.filter (fun c => c.status == CmdStatus.pending)).map (markSent t₁)
    ∧ (∀ c ∈ (drainPending t₁ q).1,
        c.status = CmdStatus.sent ∧ c.sentAt = some t₁)
    ∧ (∀ c ∈ (drainPending t₁ q).2, c.status = CmdStatus.sent)
    ∧ (drainPending t₂ (drainPending t₁ q).2).1 = [] := by
  have hkept : retained t₁ q = q := by
    rw [retained, List.filter_eq_self]
    intro c hc
    simpa using hret c hc
  have hsent : ∀ c ∈ (drainPending t₁ q).2, c.status = CmdStatus.sent := by
    intro c hc
    simp only [drainPending] at hc
    obtain ⟨c₀, _, rfl⟩ := List.mem_map.mp hc
    by_cases h : c₀.status = CmdStatus.pending
    · simp [h, markSent]
    · have hs : c₀.status = CmdStatus.sent := by
        cases hs' : c₀.status
        · exact absurd hs' h
        · rfl
      simp [h, hs]
  refine ⟨?_, ?_, hsent, drainPending_fst_eq_nil t₂ _ hsent⟩
  · simp only [drainPending, hkept]
  · intro c hc
    simp only [drainPending] at hc
    obtain ⟨c₀, _, rfl⟩ := List.mem_map.mp hc
    exact ⟨rfl, rfl⟩

/-- Witness for C2 on the concrete queue: the first poll returns the two
pending commands marked sent in order, the immediate second poll returns
the empty sequence. -/
theorem drain_pickup_once_witness :
    (drainPending 1000 pollQueue).1
      = (pollQueue.filter (fun c => c.status == CmdStatus.pending)).map (markSent 1000)
    ∧ (drainPending 2000 (drainPending 1000 pollQueue).2).1 = [] := by
  have h := drain_pickup_once 1000 2000 pollQueue (by decide)
  exact ⟨h.1, h.2.2.2⟩

/-- C3: resolution semantics. A result reported with success for a given
command id removes every command with that id from the queue; a result
reported with failure leaves the registry (hence the queue, and every
command status in it) untouched. Moreover, among the command-queue
operations this success path and retention eviction are the only ways a
command leaves the queue: the poll hands out only previously-pending
commands (so a command left in status sent is not re-delivered), the
poll keeps every command inside the retention window in the stored
queue, the reset endpoint keeps every command, and command enqueue keeps
every command. -/
theorem resolve_success_removes (reg : Registry) (deviceId name cid : String)
    (d : Dashcam) (q : List Command) (t : Nat) (c : Command)
    (hget : getD reg deviceId = some d) (hq : d.pendingCommands = some q) :
    (∀ c' ∈ queueOf (httpPostResponse deviceId name true (some cid) reg) deviceId,
        c'.id ≠ cid)
    ∧ (∀ cidOpt : Option String,
        httpPostResponse deviceId name false cidOpt reg = reg)
    ∧ (∀ c' ∈ (drainPending t q).1,
        ∃ c₀ ∈ q, c₀.status = CmdStatus.pending ∧ c' = markSent t c₀)
    ∧ (c ∈ q → t < c.timestamp + retentionMs →
        ∃ c' ∈ (drainPending t q).2, c'.id = c.id ∧ c'.command = c.command)
    ∧ (c ∈ q → ∃ c' ∈ resetQueue q, c'.id = c.id ∧ c'.command = c.command)
    ∧ (∀ params : Params, c ∈ queueOf reg deviceId →
        c ∈ queueOf (httpPostCommand t deviceId name params reg).1 deviceId) := by
  refine ⟨?_, ?_, ?_, ?_, ?_, ?_⟩
  · intro c' hc'
    have hresp : httpPostResponse deviceId name true (some cid) reg
        = setD reg deviceId
            { d with
              pendingCommands :=
                some (q.filter (fun c0 => !(decide (c0.id = cid)))) } := by
      simp [httpPostResponse, hget, hq]
    rw [hresp] at hc'
    simp [queueOf, getD_setD_self] at hc'
    exact hc'.2
  · intro cidOpt
    simp [httpPostResponse, hget, hq]
  · intro c' hc'
    simp only [drainPending] at hc'
    obtain ⟨c₀, hc₀, rfl⟩ := List.mem_map.mp hc'
    have h₀ := List.mem_filter.mp hc₀
    refine ⟨c₀, (mem_retained h₀.1).1, ?_, rfl⟩
    simpa using h₀.2
  · intro hc hret
    refine ⟨if c.status == CmdStatus.pending then markSent t c else c, ?_, ?_⟩
    · simp only [drainPending]
      refine List.mem_map_of_mem _ ?_
      rw [retained, List.mem_filter]
      exact ⟨hc, by simpa using hret⟩
    · by_cases h : c.status == CmdStatus.pending <;> simp [h, markSent]
  · intro hc
    refine ⟨if c.status == CmdStatus.sent then
              { c with status := CmdStatus.pending, sentAt := none } else c, ?_, ?_⟩
    · rw [resetQueue]
      exact List.mem_map_of_mem _ hc
    · by_cases h : c.status == CmdStatus.sent <;> simp [h]
  · intro params hc
    rcases hrec : recentDuplicates t name (d.pendingCommands.getD []) with _ | ⟨c₁, cs⟩
    · have h := httpPostCommand_fresh t deviceId name params reg d hget hrec
      rw [h]
      simp only [queueOf, hget] at hc
      simp [queueOf, getD_setD_self]
      exact Or.inl hc
    · have h := httpPostCommand_dup t deviceId name params reg d c₁ cs hget hrec
      rw [h]
      exact hc

/-- Witness for C3: on the concrete device, a failed result leaves the
registry untouched, and after a successful result for command id 100
that id no longer occurs in the stored queue. -/
theorem resolve_success_removes_witness :
    httpPostResponse "d" "takePhoto" false none [("d", resolveDevice)]
        = [("d", resolveDevice)]
    ∧ "100" ∉ (queueOf (httpPostResponse "d" "takePhoto" true (some "100")
          [("d", resolveDevice)]) "d").map Command.id := by
  have h := resolve_success_removes [("d", resolveDevice)] "d" "takePhoto" "100"
    resolveDevice pollQueue 1000
    { id := "100", command := "takePhoto", parameters := [], timestamp := 100,
      status := CmdStatus.pending, sentAt := none }
    (by decide) (by decide)
  refine ⟨h.2.1 none, fun hmem => ?_⟩
  obtain ⟨c', hc', hid⟩ := List.mem_map.mp hmem
  exact h.1 c' hc' hid

/-- C10: when a successful result arrives without a command id, the
name fallback removes from the queue every command whose name equals the
reported name, whatever its status, and keeps exactly the commands with
a different name. -/
theorem resolve_by_name_removes_all (reg : Registry) (deviceId name : String)
    (d : Dashcam) (q : List Command)
    (hget : getD reg deviceId = some d) (hq : d.pendingCommands = some q) :
    queueOf (httpPostResponse deviceId name true none reg) deviceId
        = q.filter (fun c0 => !(decide (c0.command = name)))
    ∧ (∀ c ∈ q, c.command = name →
        c ∉ queueOf (httpPostResponse deviceId name true none reg) deviceId)
    ∧ (∀ c ∈ q, c.command ≠ name →
        c ∈ queueOf (httpPostResponse deviceId name true none reg) deviceId) := by
  have hresp : httpPostResponse deviceId name true none reg
      = setD reg deviceId
          { d with
            pendingCommands :=
              some (q.filter (fun c0 => !(decide (c0.command = name)))) } := by
    simp [httpPostResponse, hget, hq]
  have hqof : queueOf (httpPostResponse deviceId name true none reg) deviceId
      = q.filter (fun c0 => !(decide (c0.command = name))) := by
    rw [hresp]
    simp [queueOf, getD_setD_self]
  refine ⟨hqof, ?_, ?_⟩
  · intro c hc hname hmem
    rw [hqof] at hmem
    have h' := List.mem_filter.mp hmem
    simp [hname] at h'
  · intro c hc hname
    rw [hqof]
    exact List.mem_filter.mpr ⟨hc, by simp [hname]⟩

/-- Witness for C10: one success report named takePhoto with no id wipes
both same-named commands (the pending and the sent one) from the
concrete queue, keeping only the getStatus command. -/
theorem resolve_by_name_removes_all_witness :
    queueOf (httpPostResponse "d" "takePhoto" true none [("d", dupNameDevice)]) "d"
      = [{ id := "3", command := "getStatus", parameters := [], timestamp := 300,
           status := CmdStatus.pending, sentAt := none }] := by
  have h := resolve_by_name_removes_all [("d", dupNameDevice)] "d" "takePhoto"
    dupNameDevice _ (by decide) rfl
  rw [h.1]
  decide

/-- C5: a command strictly older than the 10-minute retention window at
poll time is evicted by that poll, whatever its status: it appears
neither among the commands handed to the device nor in the stored queue
afterwards. -/
theorem retention_evicts (now : Nat) (q : List Command) (c : Command)
    (hc : c ∈ q) (hold : c.timestamp + retentionMs < now) :
    c ∉ (drainPending now q).1 ∧ c ∉ (drainPending now q).2 := by
  have hts : ∀ c' ∈ retained now q, now < c'.timestamp + retentionMs :=
    fun c' hc' => (mem_retained hc').2
  constructor
  · intro hmem
    simp only [drainPending] at hmem
    obtain ⟨c₀, hc₀, heq⟩ := List.mem_map.mp hmem
    have h₀ := hts c₀ (List.mem_filter.mp hc₀).1
    have hts' : c.timestamp = c₀.timestamp := by
      rw [← heq]
      rfl
    omega
  · intro hmem
    simp only [drainPending] at hmem
    obtain ⟨c₀, hc₀, heq⟩ := List.mem_map.mp hmem
    have h₀ := hts c₀ hc₀
    have hts' : c.timestamp = c₀.timestamp := by
      rw [← heq]
      by_cases h : c₀.status == CmdStatus.pending <;> simp [h, markSent]
    omega

/-- Witness for C5: at poll time 700000 the command enqueued at time 100
is gone from both the poll output and the stored queue. -/
theorem retention_evicts_witness :
    oldCommand ∉ (drainPending 700000 [oldCommand]).1
    ∧ oldCommand ∉ (drainPending 700000 [oldCommand]).2 :=
  retention_evicts 700000 [oldCommand] oldCommand (by decide) (by decide)

/-- C4 (amended): the push-channel registration merges into an existing
record — socket handle attached, last-seen refreshed, state online,
metadata merged by object spread — keeping the command queue, event
list, location and registration time unchanged; for an unknown id it
creates a fresh online record with an empty events list, no queue and
the handle attached. The HTTP registration endpoint instead always
stores a brand-new record under the id — so for an existing id it
replaces the record, dropping its queued commands, events and location —
and the record it stores carries no socket handle, no events list and no
queue. -/
theorem register_merge_and_replace (now : Nat) (sid deviceId : String)
    (info : Info) (model version : Option String) (reg : Registry) (d : Dashcam) :
    (getD reg deviceId = some d →
      getD (socketRegister now sid deviceId info reg) deviceId
        = some { d with
                 socketId := some sid, lastSeen := now, status := "online",
                 deviceInfo := mergeInfo d.deviceInfo info })
    ∧ (getD reg deviceId = none →
      getD (socketRegister now sid deviceId info reg) deviceId
        = some { model := none, version := none, status := "online",
                 socketId := some sid, lastSeen := now, registeredAt := now,
                 location := none, events := some [], pendingCommands := none,
                 jt808Enabled := false, deviceInfo := info,
                 batteryLevel := none, storageAvailable := none })
    ∧ (deviceId ≠ "" →
      getD (httpRegister now deviceId model version reg).1 deviceId
        = some { model := some (model.getD "Unknown"),
                 version := some (version.getD "Unknown"),
                 status := "online", socketId := none,
                 lastSeen := now, registeredAt := now,
                 location := none, events := none, pendingCommands := none,
                 jt808Enabled := false, deviceInfo := [],
                 batteryLevel := none, storageAvailable := none }) := by
  refine ⟨?_, ?_, ?_⟩
  · intro hget
    simp only [socketRegister, hget]
    exact getD_setD_self _ _ _
  · intro hget
    simp only [socketRegister, hget]
    exact getD_setD_self _ _ _
  · intro hid
    simp only [httpRegister, if_neg hid]
    exact getD_setD_self _ _ _

/-- C4 counterexample: HTTP re-registration of a known device replaces
its record wholesale — the queued command, the event list and the
location are gone afterwards — refuting the claim that registration
leaves the queued commands, events and location unchanged and never
replaces or empties an existing record. -/
theorem register_replaces_counterexample :
    queueOf [("d", busyDevice)] "d" ≠ []
    ∧ queueOf ((httpRegister 2000 "d" (some "X1") none [("d", busyDevice)]).1) "d" = []
    ∧ (getD ((httpRegister 2000 "d" (some "X1") none [("d", busyDevice)]).1) "d").map
        Dashcam.events = some none
    ∧ (getD ((httpRegister 2000 "d" (some "X1") none [("d", busyDevice)]).1) "d").map
        Dashcam.location = some none := by
  decide

/-- Witness for C4: socket re-registration of the busy device keeps its
queue, events, location and registration time while attaching the new
handle; HTTP registration of the same device stores a fresh record. -/
theorem register_merge_and_replace_witness :
    getD (socketRegister 2000 "s2" "d" [("fw", "8")] [("d", busyDevice)]) "d"
      = some { busyDevice with
               socketId := some "s2", lastSeen := 2000, status := "online",
               deviceInfo := mergeInfo busyDevice.deviceInfo [("fw", "8")] }
    ∧ getD (httpRegister 2000 "d" (some "X1") none [("d", busyDevice)]).1 "d"
      = some { model := some "X1", version := some "Unknown",
               status := "online", socketId := none,
               lastSeen := 2000, registeredAt := 2000,
               location := none, events := none, pendingCommands := none,
               jt808Enabled := false, deviceInfo := [],
               batteryLevel := none, storageAvailable := none } := by
  have h := register_merge_and_replace 2000 "s2" "d" [("fw", "8")] (some "X1") none
    [("d", busyDevice)] busyDevice
  exact ⟨h.1 (by decide), h.2.2 (by decide)⟩

/-- C6: on a sweep, every online device whose silence strictly exceeds
the heartbeat timeout transitions to offline with its handle cleared and
its id collected in the batch; online devices within the timeout and
devices not online are untouched and not collected; when the batch is
non-empty the registry is persisted exactly once and a single batched
devices-offline notification carrying the whole batch is emitted, and
when it is empty there is no persistence and no notification. -/
theorem liveness_sweep (now : Nat) (reg : Registry)
    (hnd : (reg.map Prod.fst).Nodup) :
    (∀ p ∈ reg, p.2.status = "online" → p.2.lastSeen + heartbeatTimeoutMs < now →
        ((p.1, { p.2 with status := "offline", socketId := none })
            ∈ (sweepRun now reg).1
         ∧ p.1 ∈ (sweepRun now reg).2.1))
    ∧ (∀ p ∈ reg, p.2.status = "online" →
        ¬ p.2.lastSeen + heartbeatTimeoutMs < now →
        (p ∈ (sweepRun now reg).1 ∧ p.1 ∉ (sweepRun now reg).2.1))
    ∧ (∀ p ∈ reg, p.2.status ≠ "online" →
        (p ∈ (sweepRun now reg).1 ∧ p.1 ∉ (sweepRun now reg).2.1))
    ∧ ((sweepRun now reg).2.1 ≠ [] →
        (sweepRun now reg).2.2.1 = 1
        ∧ (sweepRun now reg).2.2.2
            = [SweepEmit.devicesOffline (sweepRun now reg).2.1])
    ∧ ((sweepRun now reg).2.1 = [] →
        (sweepRun now reg).2.2.1 = 0 ∧ (sweepRun now reg).2.2.2 = []) := by
  have hparts1 : (sweepRun now reg).1 = (sweepRegistry now reg).1 := by
    by_cases h : (sweepRegistry now reg).2.isEmpty <;> simp [sweepRun, h]
  have hparts2 : (sweepRun now reg).2.1 = (sweepRegistry now reg).2 := by
    by_cases h : (sweepRegistry now reg).2.isEmpty <;> simp [sweepRun, h]
  have hnotin : ∀ p ∈ reg, (sweepDevice now p.2).2 = false →
      p.1 ∉ (sweepRegistry now reg).2 := by
    intro p hp hfalse hmem
    rw [sweepRegistry] at hmem
    obtain ⟨p', hp'f, hk⟩ := List.mem_map.mp hmem
    have hp'r := List.mem_filter.mp hp'f
    have hpp : p' = p := key_inj_of_nodup hnd hp'r.1 hp hk
    have htrue : (sweepDevice now p.2).2 = true := by
      have h2 := hp'r.2
      rw [hpp] at h2
      exact h2
    rw [hfalse] at htrue
    cases htrue
  refine ⟨?_, ?_, ?_, ?_, ?_⟩
  · intro p hp ho hexp
    have hcond : p.2.status = "online" ∧ p.2.lastSeen + heartbeatTimeoutMs < now :=
      ⟨ho, hexp⟩
    have hdev : sweepDevice now p.2
        = ({ p.2 with status := "offline", socketId := none }, true) := by
      rw [sweepDevice, if_pos hcond]
    constructor
    · rw [hparts1]
      have hmm : (p.1, (sweepDevice now p.2).1) ∈ (sweepRegistry now reg).1 := by
        rw [sweepRegistry]
        exact List.mem_map_of_mem _ hp
      rw [hdev] at hmm
      exact hmm
    · rw [hparts2, sweepRegistry]
      refine List.mem_map_of_mem Prod.fst (List.mem_filter.mpr ⟨hp, ?_⟩)
      show (sweepDevice now p.2).2 = true
      rw [hdev]
  · intro p hp ho hexp
    have hcond : ¬ (p.2.status = "online" ∧ p.2.lastSeen + heartbeatTimeoutMs < now) :=
      fun hh => hexp hh.2
    have hdev : sweepDevice now p.2 = (p.2, false) := by
      rw [sweepDevice, if_neg hcond]
    constructor
    · rw [hparts1]
      have hmm : (p.1, (sweepDevice now p.2).1) ∈ (sweepRegistry now reg).1 := by
        rw [sweepRegistry]
        exact List.mem_map_of_mem _ hp
      rw [hdev] at hmm
      exact hmm
    · rw [hparts2]
      exact hnotin p hp (by rw [hdev])
  · intro p hp ho
    have hcond : ¬ (p.2.status = "online" ∧ p.2.lastSeen + heartbeatTimeoutMs < now) :=
      fun hh => ho hh.1
    have hdev : sweepDevice now p.2 = (p.2, false) := by
      rw [sweepDevice, if_neg hcond]
    constructor
    · rw [hparts1]
      have hmm : (p.1, (sweepDevice now p.2).1) ∈ (sweepRegistry now reg).1 := by
        rw [sweepRegistry]
        exact List.mem_map_of_mem _ hp
      rw [hdev] at hmm
      exact hmm
    · rw [hparts2]
      exact hnotin p hp (by rw [hdev])
  · intro hne
    rw [hparts2] at hne
    cases hl : (sweepRegistry now reg).2 with
    | nil => exact absurd hl hne
    | cons a as =>
      constructor
      · simp [sweepRun, hl]
      · simp [sweepRun, hl]
  · intro hnil
    rw [hparts2] at hnil
    simp [sweepRun, hnil]

/-- Witness for C6 on a three-device registry at sweep time 400000: the
stale online device goes offline and into the batch, the live one stays,
and exactly one persistence snapshot and one batched notification are
produced. -/
theorem liveness_sweep_witness :
    (("a", { staleDevice with status := "offline", socketId := none })
        ∈ (sweepRun 400000 sweepReg).1
     ∧ "a" ∈ (sweepRun 400000 sweepReg).2.1)
    ∧ (("b", liveDevice) ∈ (sweepRun 400000 sweepReg).1
       ∧ "b" ∉ (sweepRun 400000 sweepReg).2.1)
    ∧ (sweepRun 400000 sweepReg).2.2.1 = 1
    ∧ (sweepRun 400000 sweepReg).2.2.2
        = [SweepEmit.devicesOffline (sweepRun 400000 sweepReg).2.1] := by
  have h := liveness_sweep 400000 sweepReg (by decide)
  refine ⟨?_, ?_, ?_, ?_⟩
  · exact h.1 ("a", staleDevice) (by decide) (by decide) (by decide)
  · exact h.2.1 ("b", liveDevice) (by decide) (by decide) (by decide)
  · exact (h.2.2.2.1 (by decide)).1
  · exact (h.2.2.2.1 (by decide)).2

theorem sessionInv_setD {reg : Registry} {did : String} {d : Dashcam}
    (hinv : sessionInv reg) (hd : sessionOk d) : sessionInv (setD reg did d) := by
  intro p hp
  rcases mem_setD hp with rfl | hp'
  · exact hd
  · exact hinv p hp'

theorem mem_disconnect {sid : String} :
    ∀ {reg : Registry} {p : String × Dashcam}, p ∈ disconnectSocket sid reg →
      p ∈ reg ∨ (p.2.status = "offline" ∧ p.2.socketId = none) := by
  intro reg
  induction reg with
  | nil => intro p hp; cases hp
  | cons q rest ih =>
    intro p hp
    by_cases hq : q.2.socketId = some sid
    · simp only [disconnectSocket, if_pos hq] at hp
      rcases List.mem_cons.mp hp with rfl | hp'
      · exact Or.inr ⟨rfl, rfl⟩
      · exact Or.inl (List.mem_cons_of_mem _ hp')
    · simp only [disconnectSocket, if_neg hq] at hp
      rcases List.mem_cons.mp hp with rfl | hp'
      · exact Or.inl (List.mem_cons_self _ _)
      · rcases ih hp' with h | h
        · exact Or.inl (List.mem_cons_of_mem _ h)
        · exact Or.inr h

theorem sessionInv_disconnect {reg : Registry} {sid : String}
    (hinv : sessionInv reg) : sessionInv (disconnectSocket sid reg) := by
  intro p hp
  rcases mem_disconnect hp with h | h
  · exact hinv p h
  · exact ⟨fun ho => absurd (h.1.symm.trans ho) (by decide), fun _ => h.2⟩

theorem sessionInv_sweep {reg : Registry} (now : Nat)
    (hinv : sessionInv reg) : sessionInv (sweepRegistry now reg).1 := by
  intro p hp
  rw [sweepRegistry] at hp
  obtain ⟨p₀, hp₀, rfl⟩ := List.mem_map.mp hp
  show sessionOk (sweepDevice now p₀.2).1
  by_cases hc : p₀.2.status = "online" ∧ p₀.2.lastSeen + heartbeatTimeoutMs < now
  · rw [sweepDevice, if_pos hc]
    exact ⟨fun h => by simp at h, fun _ => rfl⟩
  · rw [sweepDevice, if_neg hc]
    exact hinv p₀ hp₀

theorem sessionInv_restore (reg : Registry) : sessionInv (restoreFromDisk reg) := by
  intro p hp
  rw [restoreFromDisk] at hp
  obtain ⟨p₀, _, rfl⟩ := List.mem_map.mp hp
  exact ⟨fun h => by simp at h, fun _ => rfl⟩

theorem sessionInv_applyOp {reg : Registry} {op : FleetOp}
    (hop : pushChannelOp op = true) (hinv : sessionInv reg) :
    sessionInv (applyOp reg op) := by
  cases op with
  | opSocketRegister now sid did info =>
    show sessionInv (socketRegister now sid did info reg)
    cases hget : getD reg did with
    | some d =>
      simp only [socketRegister, hget]
      exact sessionInv_setD hinv ⟨fun _ => rfl, fun h => by simp at h⟩
    | none =>
      simp only [socketRegister, hget]
      exact sessionInv_setD hinv ⟨fun _ => rfl, fun h => by simp at h⟩
  | opSocketReconnect now sid did info =>
    show sessionInv (socketReconnect now sid did info reg)
    cases hget : getD reg did with
    | some d =>
      simp only [socketReconnect, hget]
      exact sessionInv_setD hinv ⟨fun _ => rfl, fun h => by simp at h⟩
    | none =>
      simp only [socketReconnect, hget]
      exact hinv
  | opHttpRegister now did model version =>
    simp [pushChannelOp] at hop
  | opSocketHeartbeat now did =>
    show sessionInv (socketHeartbeat now did reg)
    cases hget : getD reg did with
    | some d =>
      simp only [socketHeartbeat, hget]
      exact sessionInv_setD hinv (hinv (did, d) (getD_mem hget))
    | none =>
      simp only [socketHeartbeat, hget]
      exact hinv
  | opHttpHeartbeat now did b s =>
    show sessionInv (httpHeartbeat now did b s reg)
    cases hget : getD reg did with
    | some d =>
      simp only [httpHeartbeat, hget]
      exact sessionInv_setD hinv (hinv (did, d) (getD_mem hget))
    | none =>
      simp only [httpHeartbeat, hget]
      exact hinv
  | opStatusUpdate now did st b s jt =>
    simp [pushChannelOp] at hop
  | opDisconnect sid =>
    exact sessionInv_disconnect hinv
  | opSweep now =>
    exact sessionInv_sweep now hinv
  | opRestore =>
    exact sessionInv_restore reg

/-- C7 (amended): the session-handle invariant — online records hold a
socket handle, offline records hold none — is preserved by every
sequence of push-channel and system operations: socket registration and
reconnection, heartbeats on either channel, the disconnect handler, the
periodic sweep and the restore from disk. It is not an invariant of the
full operation set: the HTTP registration endpoint creates online
records with no handle, and the HTTP status endpoint can store status
offline without clearing the handle (see the counterexample). -/
theorem session_handle_invariant_push_ops (ops : List FleetOp) :
    ∀ reg : Registry, (∀ op ∈ ops, pushChannelOp op = true) → sessionInv reg →
      sessionInv (applyOps reg ops) := by
  induction ops with
  | nil =>
    intro reg _ hinv
    exact hinv
  | cons op rest ih =>
    intro reg hops hinv
    rw [applyOps, List.foldl_cons]
    exact ih _ (fun o ho => hops o (List.mem_cons_of_mem _ ho))
      (sessionInv_applyOp (hops op (List.mem_cons_self _ _)) hinv)

/-- C7 counterexample: two reachable states violating the claimed
invariant. HTTP registration of an unknown id yields an online record
with no session handle; and a socket registration followed by an HTTP
status update posting offline yields an offline record that still holds
its session handle. -/
theorem session_handle_invariant_counterexample :
    ¬ sessionInv (applyOps [] [FleetOp.opHttpRegister 1000 "d" none none])
    ∧ ¬ sessionInv (applyOps []
         [FleetOp.opSocketRegister 1000 "s1" "d" [],
          FleetOp.opStatusUpdate 2000 "d" (some "offline") none none false]) := by
  decide

/-- Witness for C7: a concrete push-channel history — register, both
heartbeats, reconnect, sweep, disconnect, restore — keeps the invariant
from the empty registry. -/
theorem session_handle_invariant_witness :
    sessionInv (applyOps []
      [FleetOp.opSocketRegister 1000 "s1" "d" [("fw", "7")],
       FleetOp.opSocketHeartbeat 2000 "d",
       FleetOp.opHttpHeartbeat 3000 "d" (some 80) (some 12),
       FleetOp.opSocketReconnect 4000 "s2" "d" none,
       FleetOp.opSweep 200000,
       FleetOp.opDisconnect "s2",
       FleetOp.opRestore]) :=
  session_handle_invariant_push_ops _ [] (by decide) (by decide)

/-- C8 (amended): the location endpoint auto-provisions — for an unknown
id it creates the default record of that handler and stores the location
with last-seen refreshed, and for a known id it updates location and
last-seen in place. The events endpoint does not auto-provision: for an
unknown id the registry is left unchanged (the event goes only to the
global event log), and only for a known id (with an events list) is the
event appended to the record and last-seen refreshed. -/
theorem data_path_provisioning (now : Nat)
    (deviceId evId eventType description : String) (loc : Location)
    (log : List EventRec) (reg : Registry) (d : Dashcam) (evs : List EventRec) :
    (getD reg deviceId = none →
        getD (httpPostLocation now deviceId loc reg) deviceId
          = some { model := some "Unknown", version := some "1.0",
                   status := "online", socketId := none, lastSeen := now,
                   registeredAt := now, location := some loc, events := some [],
                   pendingCommands := none, jt808Enabled := false,
                   deviceInfo := [], batteryLevel := none,
                   storageAvailable := none })
    ∧ (getD reg deviceId = some d →
        getD (httpPostLocation now deviceId loc reg) deviceId
          = some { d with location := some loc, lastSeen := now })
    ∧ (getD reg deviceId = none →
        (httpPostEvent now deviceId evId eventType description log reg).2.1 = reg
        ∧ (httpPostEvent now deviceId evId eventType description log reg).1
            = log ++ [{ evId := evId, deviceId := deviceId,
                        eventType := eventType, description := description,
                        timestamp := now }])
    ∧ (getD reg deviceId = some d → d.events = some evs →
        getD ((httpPostEvent now deviceId evId eventType description log reg).2.1)
            deviceId
          = some { d with
                   events := some (evs ++
                     [{ evId := evId, deviceId := deviceId,
                        eventType := eventType, description := description,
                        timestamp := now }]),
                   lastSeen := now }) := by
  refine ⟨?_, ?_, ?_, ?_⟩
  · intro hget
    simp only [httpPostLocation, hget]
    exact getD_setD_self _ _ _
  · intro hget
    simp only [httpPostLocation, hget]
    exact getD_setD_self _ _ _
  · intro hget
    simp [httpPostEvent, hget]
  · intro hget hevs
    simp only [httpPostEvent, hget, hevs]
    exact getD_setD_self _ _ _

/-- C8 counterexample: the events endpoint does not auto-provision.
Posting an event for the unknown id d against the empty registry leaves
the registry without any entry for d — the event lands only in the
global event log — while the claim says the registry contains an entry
for the id after the call. -/
theorem event_no_autoprovision_counterexample :
    getD ((httpPostEvent 1000 "d" "e1" "motion" "movement" [] []).2.1) "d" = none
    ∧ (httpPostEvent 1000 "d" "e1" "motion" "movement" [] []).1
        = [{ evId := "e1", deviceId := "d", eventType := "motion",
             description := "movement", timestamp := 1000 }] := by
  decide

/-- Witness for C8: a location post for the unknown id d auto-creates
its record with the location stored, while an event post for the same
unknown id leaves the registry empty. -/
theorem data_path_provisioning_witness :
    getD (httpPostLocation 1000 "d" "loc9" []) "d"
      = some { model := some "Unknown", version := some "1.0",
               status := "online", socketId := none, lastSeen := 1000,
               registeredAt := 1000, location := some "loc9", events := some [],
               pendingCommands := none, jt808Enabled := false,
               deviceInfo := [], batteryLevel := none,
               storageAvailable := none }
    ∧ (httpPostEvent 1000 "d" "e1" "motion" "movement" [] []).2.1
        = ([] : Registry) := by
  have h := data_path_provisioning 1000 "d" "e1" "motion" "movement" "loc9" []
    [] sampleDevice []
  exact ⟨h.1 rfl, (h.2.2.1 rfl).1⟩

/-- C9: the command_response socket handler never mutates any device
queue — the registry comes back unchanged, whatever the reported success
flag, so every queued command keeps its presence and status; the only
effects of the handler are appending one entry to the global command
history and re-broadcasting the result. -/
theorem socket_response_preserves_queues (now : Nat) (cid did : Option String)
    (resp : String) (succ : Bool) (history : List HistoryEntry) (reg : Registry) :
    (socketCommandResponse now cid did resp succ history reg).2.1 = reg
    ∧ queueOf ((socketCommandResponse now cid did resp succ history reg).2.1)
        = queueOf reg
    ∧ (socketCommandResponse now cid did resp succ history reg).1
        = history ++ [{ commandId := cid, deviceId := did, response := resp,
                        success := succ, timestamp := now }]
    ∧ (socketCommandResponse now cid did resp succ history reg).2.2
        = [RespEmit.commandResponse
             { commandId := cid, deviceId := did, response := resp,
               success := succ, timestamp := now }] :=
  ⟨rfl, rfl, rfl, rfl⟩

end Fleet
